import Mathlib

/-!
Shallow embedding of `src/main.py` (a Telegram file bot that uploads files to
an S3-compatible store, records them in a SQLite table, and schedules their
deletion), together with theorems settling the specification claims.

Modelling conventions:
* Timestamps and durations are `Int` seconds (the Python code uses `datetime`
  values; only differences and comparisons matter to the claims).
* The SQLite `files` table is a `List FileRecord` in insertion (rowid) order:
  SQLAlchemy `session.add` appends, `session.delete` removes the row, and a
  query without `ORDER BY` returns rows in table order.
* The blob store is the list of keys currently present in the single bucket
  `LIARA_BUCKET_NAME` (the bucket name itself is a fixed global in the source
  and is left implicit).
* Outcomes of external calls (`s3.delete_object`, the download/upload calls)
  are passed in as explicit parameters, so each handler is a pure function of
  the state and the environment's responses.
-/

namespace TelegramFileBot

/-- A pre-signed retrieval URL as produced by `s3.generate_presigned_url`
(src/main.py lines 213-217): it is determined by the bucket, the object key
and the `ExpiresIn` parameter. -/
structure PresignedUrl where
  bucket : String
  key : String
  expiresIn : Int
deriving DecidableEq, Repr

/-- One row of the `files` table (class `FileRecord`, src/main.py lines 62-69).
`id` is the autoincrement primary key; `expiration_time` embeds the stored
`DateTime` as seconds since the epoch. -/
structure FileRecord where
  id : Nat
  user_id : Int
  file_name : String
  unique_name : String
  download_link : PresignedUrl
  expiration_time : Int
deriving DecidableEq, Repr

/-- The persistent world the handlers act on: the SQLite `files` table (in
rowid order) and the set of object keys currently present in the bucket. -/
structure SysState where
  db : List FileRecord
  blobs : List String
deriving DecidableEq, Repr

/-- Outcome of one `s3.delete_object` call (src/main.py line 126): either a
response carrying an HTTP status code, or a raised exception (for example a
transport failure while the backend is unavailable), which the handler's
`try/except` catches at line 142. -/
inductive S3DeleteResult where
  | ok (httpStatusCode : Nat)
  | err (msg : String)
deriving DecidableEq, Repr

/-- Effect of `session.delete(file_record)` after
`query(FileRecord).filter_by(unique_name=file_key).first()`
(src/main.py lines 132-135): remove the first row whose `unique_name` is
`key`; when no row matches, the handler only logs a warning and the table is
unchanged. -/
def deleteFirstRecord : List FileRecord → String → List FileRecord
  | [], _ => []
  | r :: rs, key => if r.unique_name = key then rs else r :: deleteFirstRecord rs key

/-- Embeds the body of `schedule_deletion` after the `asyncio.sleep`
(src/main.py lines 124-143), given the outcome `res` of the single
`s3.delete_object` call it issues.  Returns the new state together with the
list of blob-store delete calls issued (one per execution, from the single
call site at line 126).
* If the call raised, the `except` at line 142 logs and returns: the state is
  left unchanged (the blob is conservatively kept, since the delete did not
  report completion).
* If a response came back, the backend processed the unconditional delete, so
  the key is gone from the bucket; the database row is removed only when the
  status code is 204 (line 127), otherwise only a warning is logged
  (lines 140-141). -/
def schedule_deletion (st : SysState) (file_key : String) (res : S3DeleteResult) :
    SysState × List String :=
  match res with
  | S3DeleteResult.err _ => (st, [file_key])
  | S3DeleteResult.ok status =>
    let blobs' := st.blobs.filter (fun k => k ≠ file_key)
    if status = 204 then
      ({ db := deleteFirstRecord st.db file_key, blobs := blobs' }, [file_key])
    else
      ({ st with blobs := blobs' }, [file_key])

/-- The intermediate state of the deletion sequence: after the
`s3.delete_object` call has returned (src/main.py line 126) but before the
database row is touched (line 134). -/
def schedule_deletion_mid (st : SysState) (file_key : String) (res : S3DeleteResult) :
    SysState :=
  match res with
  | S3DeleteResult.err _ => st
  | S3DeleteResult.ok _ => { st with blobs := st.blobs.filter (fun k => k ≠ file_key) }

/-- Semantics of `await asyncio.sleep(delay_seconds)` (src/main.py line 123) on
the waiting duration: a non-positive delay yields on the next scheduling
opportunity (duration 0); it is never an error. -/
def sleepDuration (delay_seconds : Int) : Int := max 0 delay_seconds

/-- A deletion task created by `asyncio.create_task(schedule_deletion(...))`
(src/main.py line 234), recording the object key and the delay it was armed
with (the bucket argument is the fixed global bucket). -/
structure ArmedTask where
  file_key : String
  delay_seconds : Int
deriving DecidableEq, Repr

/-- What `handle_document` answers to the sender (src/main.py lines 198, 236,
240, 243). -/
inductive Reply where
  | unsupportedType
  | uploaded (url : PresignedUrl)
  | credentialsError
  | uploadError (msg : String)
deriving DecidableEq, Repr

/-- Outcome of the external calls inside the `try` block of `handle_document`
(src/main.py lines 203-236): the Telegram download (lines 204-205) and the
blob-store upload `s3.upload_fileobj` (line 209).  A failure of any of them
raises and is caught by the `except` clauses at lines 238-243 before any
database write. -/
inductive UploadOutcome where
  | ok
  | getFileFailed (msg : String)
  | noCredentials
  | storageUnavailable (msg : String)
deriving DecidableEq, Repr

/-- Autoincrement primary key assigned by the database on insert. -/
def nextId (db : List FileRecord) : Nat := db.length + 1

/-- Embeds `handle_document` (src/main.py lines 166-243).  The file-type
dispatch at lines 172-199 only determines the `file_id`/`file_name` pair or
takes the unsupported-type early return; it is embedded as the
`fileInfo : Option (String × String)` argument.  `uuid` is the fresh
`uuid.uuid4()` value of line 208, `now` the clock reading of line 220, and
`outcome` the result of the download/upload calls.  Returns the new state,
the reply sent to the user, and the deletion tasks armed (line 234). -/
def handle_document (st : SysState) (now : Int) (uid : Int)
    (fileInfo : Option (String × String)) (uuid : String) (outcome : UploadOutcome) :
    SysState × Reply × List ArmedTask :=
  match fileInfo with
  | none => (st, Reply.unsupportedType, [])
  | some (_file_id, file_name) =>
    match outcome with
    | UploadOutcome.getFileFailed m => (st, Reply.uploadError m, [])
    | UploadOutcome.noCredentials => (st, Reply.credentialsError, [])
    | UploadOutcome.storageUnavailable m => (st, Reply.uploadError m, [])
    | UploadOutcome.ok =>
      let unique_name := uuid ++ "_" ++ file_name
      let pre_signed_url : PresignedUrl :=
        { bucket := "LIARA_BUCKET_NAME", key := unique_name, expiresIn := 3600 }
      let expiration_time := now + 3600
      let record : FileRecord :=
        { id := nextId st.db, user_id := uid, file_name := file_name,
          unique_name := unique_name, download_link := pre_signed_url,
          expiration_time := expiration_time }
      ({ db := st.db ++ [record], blobs := st.blobs ++ [unique_name] },
       Reply.uploaded pre_signed_url,
       [{ file_key := unique_name, delay_seconds := 3600 }])

/-- The query of `files_handler` (src/main.py line 150):
`session.query(FileRecord).filter_by(user_id=user_id).all()` — all rows with
the given `user_id`, in table order (no `ORDER BY` clause). -/
def files_handler (st : SysState) (user_id : Int) : List FileRecord :=
  st.db.filter (fun r => r.user_id = user_id)

/-- What `files_handler` answers (src/main.py lines 152-159): a fixed message
when the list is empty (line 153), otherwise the listing; never an error. -/
inductive FilesReply where
  | noFiles
  | listing (files : List FileRecord)
deriving DecidableEq, Repr

/-- The reply of `files_handler` as a function of the state. -/
def files_handler_reply (st : SysState) (user_id : Int) : FilesReply :=
  let files := files_handler st user_id
  if files.isEmpty then FilesReply.noFiles else FilesReply.listing files

/-- Embeds `main` (src/main.py lines 247-249): it logs a line and starts
polling for new Telegram updates.  It reads nothing from the `files` table
and creates no tasks, so startup leaves the persistent state unchanged and
arms no deletion tasks. -/
def main_startup (st : SysState) : SysState × List ArmedTask := (st, [])

/-- The record/blob consistency invariant of the specification: every object
present in the blob store is covered by a metadata row (the non-deleted rows
are a superset of the stored objects). -/
def recordCovers (st : SysState) : Prop :=
  ∀ k ∈ st.blobs, ∃ r ∈ st.db, r.unique_name = k

instance (st : SysState) : Decidable (recordCovers st) := by
  unfold recordCovers; infer_instance

/-- The database row created by a successful `handle_document` run (src/main.py
lines 208-228), written out as a standalone definition (definitionally equal to
the row appended by `handle_document`). -/
def createdRecord (st : SysState) (now uid : Int) (file_name uuid : String) : FileRecord :=
  { id := nextId st.db, user_id := uid, file_name := file_name,
    unique_name := uuid ++ "_" ++ file_name,
    download_link := { bucket := "LIARA_BUCKET_NAME", key := uuid ++ "_" ++ file_name,
                       expiresIn := 3600 },
    expiration_time := now + 3600 }

/-- A concrete stored row used by witnesses and counterexamples: object key
`k1`, owner 7, expiring at time 100. -/
def exRecord : FileRecord :=
  { id := 1, user_id := 7, file_name := "a.txt", unique_name := "k1",
    download_link := { bucket := "LIARA_BUCKET_NAME", key := "k1", expiresIn := 3600 },
    expiration_time := 100 }

/-- A second concrete row with a different owner. -/
def exRecord2 : FileRecord :=
  { id := 2, user_id := 8, file_name := "b.txt", unique_name := "k2",
    download_link := { bucket := "LIARA_BUCKET_NAME", key := "k2", expiresIn := 3600 },
    expiration_time := 150 }

/-- A concrete world state: one row and its blob. -/
def exState : SysState := { db := [exRecord], blobs := ["k1"] }

/-- A concrete world state with two owners' rows and their blobs. -/
def exState2 : SysState := { db := [exRecord, exRecord2], blobs := ["k1", "k2"] }

/-- Helper: a row whose `unique_name` differs from `key` survives
`deleteFirstRecord`. -/
theorem mem_deleteFirstRecord_of_ne (db : List FileRecord) (key : String) (r : FileRecord)
    (hr : r ∈ db) (hne : r.unique_name ≠ key) : r ∈ deleteFirstRecord db key := by
  induction db with
  | nil => cases hr
  | cons a as ih =>
    simp only [deleteFirstRecord]
    split
    · next heq =>
      cases hr with
      | head => exact absurd heq hne
      | tail _ h => exact h
    · cases hr with
      | head => exact List.mem_cons_self _ _
      | tail _ h => exact List.mem_cons_of_mem _ (ih h)

/-- Helper: when a matching row is present, `deleteFirstRecord` removes exactly
one row. -/
theorem length_deleteFirstRecord_of_mem (db : List FileRecord) (key : String)
    (h : ∃ r ∈ db, r.unique_name = key) :
    (deleteFirstRecord db key).length + 1 = db.length := by
  induction db with
  | nil => obtain ⟨r, hr, _⟩ := h; cases hr
  | cons a as ih =>
    simp only [deleteFirstRecord]
    split
    · simp
    · next hne2 =>
      obtain ⟨r, hr, hrk⟩ := h
      cases hr with
      | head => exact absurd hrk hne2
      | tail _ h2 => simpa [List.length_cons] using ih ⟨r, h2, hrk⟩

/-- C1 (counterexample): the claimed startup recovery pass does not exist.  In
the concrete state `exState` the persisted row `k1` is overdue at time 200
(`expiration_time = 100`), yet it is false that every overdue row gets a
deletion trigger re-armed by `main_startup` — startup arms no tasks at all. -/
theorem C1_no_recovery_counterexample :
    ¬ (∀ r ∈ exState.db, r.expiration_time ≤ (200 : Int) →
        ∃ t ∈ (main_startup exState).2, t.file_key = r.unique_name) := by
  decide

/-- C1 (amended): on process start no recovery pass runs.  `main` only starts
polling: it leaves the persisted state unchanged and arms no deletion tasks,
so a deletion scheduled before a crash is never re-armed after a restart. -/
theorem C1_startup_arms_nothing (st : SysState) :
    (main_startup st).1 = st ∧ (main_startup st).2 = [] :=
  ⟨rfl, rfl⟩

/-- C2 (counterexample): there is no atomic claim step in the trigger handler.
Arming the trigger twice for the same record `k1` and running both executions
(serialized, as on the single-threaded event loop) issues the blob-store
delete for `k1` twice; in particular the second execution, which finds the
record already gone, is not a no-op — it still issues the delete call. -/
theorem C2_no_claim_guard_counterexample :
    ((schedule_deletion exState "k1" (S3DeleteResult.ok 204)).2 ++
      (schedule_deletion (schedule_deletion exState "k1" (S3DeleteResult.ok 204)).1 "k1"
        (S3DeleteResult.ok 204)).2).count "k1" = 2 ∧
    ¬ ((schedule_deletion (schedule_deletion exState "k1" (S3DeleteResult.ok 204)).1 "k1"
        (S3DeleteResult.ok 204)).2 = []) := by
  decide

/-- C2 (amended): the trigger handler has no claim/guard step — every
execution of `schedule_deletion`, whatever the state of the record, issues
exactly one blob-store delete call for its key (so a doubly-armed trigger
issues the delete twice, harmlessly only because the blob delete is
idempotent); the code instead arms exactly one deletion task per accepted
upload. -/
theorem C2_each_execution_issues_one_delete (st st' : SysState) (key : String)
    (res : S3DeleteResult) (now uid : Int) (fid fname uuid : String) :
    (schedule_deletion st key res).2 = [key] ∧
    ((handle_document st' now uid (some (fid, fname)) uuid UploadOutcome.ok).2.2).length = 1 := by
  refine ⟨?_, rfl⟩
  cases res with
  | err m => rfl
  | ok s =>
    simp only [schedule_deletion]
    split <;> rfl

/-- C3: at every point of the deletion sequence the non-deleted metadata rows
remain a superset of the objects present in the blob store: if every blob is
covered by a row before the trigger fires, the same holds in the intermediate
state (blob delete done, row not yet touched) and in the final state — the row
is removed only after the blob delete returned, never before. -/
theorem C3_record_superset_preserved (st : SysState) (key : String) (res : S3DeleteResult)
    (h : recordCovers st) :
    recordCovers (schedule_deletion_mid st key res) ∧
    recordCovers (schedule_deletion st key res).1 := by
  constructor
  · cases res with
    | err m => exact h
    | ok s =>
      intro k hk
      simp only [schedule_deletion_mid] at hk
      exact h k (List.mem_filter.mp hk).1
  · cases res with
    | err m => exact h
    | ok s =>
      simp only [schedule_deletion]
      split
      · intro k hk
        simp only at hk
        have hk' := List.mem_filter.mp hk
        have hkne : k ≠ key := by simpa using hk'.2
        obtain ⟨r, hr, hrk⟩ := h k hk'.1
        refine ⟨r, mem_deleteFirstRecord_of_ne st.db key r hr ?_, hrk⟩
        rw [hrk]; exact hkne
      · intro k hk
        exact h k (List.mem_filter.mp hk).1

/-- C3 witness: the invariant holds concretely through a full deletion of `k1`
from `exState`. -/
theorem C3_record_superset_preserved_witness :
    recordCovers (schedule_deletion_mid exState "k1" (S3DeleteResult.ok 204)) ∧
    recordCovers (schedule_deletion exState "k1" (S3DeleteResult.ok 204)).1 :=
  C3_record_superset_preserved exState "k1" (S3DeleteResult.ok 204) (by decide)

/-- C4 (counterexample): a delete response with HTTP status 200 is an outcome
other than a raised `StorageUnavailable` exception, yet the sequence does not
proceed to remove the metadata row: the database is unchanged and the row for
`k1` is still present. -/
theorem C4_non204_counterexample :
    ((schedule_deletion exState "k1" (S3DeleteResult.ok 200)).1).db = exState.db ∧
    exRecord ∈ ((schedule_deletion exState "k1" (S3DeleteResult.ok 200)).1).db := by
  decide

/-- C4 (amended): the sequence proceeds to remove the record exactly when the
delete response's HTTP status code is 204 (the status an S3 delete also
returns for an already-absent key); any other response status, or a raised
exception, leaves the database unchanged.  On 204 the row is genuinely
removed from the store (the table shrinks by one), not merely flagged. -/
theorem C4_delete_record_iff_status_204 (st : SysState) (key : String) (status : Nat)
    (m : String) (hs : status ≠ 204) (hr : ∃ r ∈ st.db, r.unique_name = key) :
    ((schedule_deletion st key (S3DeleteResult.ok 204)).1).db = deleteFirstRecord st.db key ∧
    ((schedule_deletion st key (S3DeleteResult.ok status)).1).db = st.db ∧
    ((schedule_deletion st key (S3DeleteResult.err m)).1).db = st.db ∧
    ((schedule_deletion st key (S3DeleteResult.ok 204)).1).db.length + 1 = st.db.length := by
  refine ⟨rfl, ?_, rfl, ?_⟩
  · simp only [schedule_deletion]
    rw [if_neg hs]
  · simpa [schedule_deletion] using length_deleteFirstRecord_of_mem st.db key hr

/-- C4 witness: concrete evaluation at `exState`, key `k1`, non-204 status
200. -/
theorem C4_delete_record_iff_status_204_witness :
    ((schedule_deletion exState "k1" (S3DeleteResult.ok 204)).1).db =
      deleteFirstRecord exState.db "k1" ∧
    ((schedule_deletion exState "k1" (S3DeleteResult.ok 200)).1).db = exState.db ∧
    ((schedule_deletion exState "k1" (S3DeleteResult.err "boom")).1).db = exState.db ∧
    ((schedule_deletion exState "k1" (S3DeleteResult.ok 204)).1).db.length + 1 =
      exState.db.length :=
  C4_delete_record_iff_status_204 exState "k1" 200 "boom" (by decide) (by decide)

/-- C5 (counterexample): on a `StorageUnavailable` failure the deletion
sequence is not retried — the execution issues strictly fewer than two delete
attempts (exactly one). -/
theorem C5_no_retry_counterexample :
    ¬ (2 ≤ ((schedule_deletion exState "k1"
        (S3DeleteResult.err "StorageUnavailable")).2).length) := by
  decide

/-- C5 (amended): when the blob-store delete raises, the sequence makes its
single attempt and stops: no retry, no backoff, and the state is left
entirely unchanged — the record simply stays in the store (rows carry no
`deletion_state`, and no startup recovery pass exists to revisit it). -/
theorem C5_single_attempt_state_unchanged (st : SysState) (key m : String) :
    schedule_deletion st key (S3DeleteResult.err m) = (st, [key]) :=
  rfl

/-- C6: if the blob-store upload fails with `StorageUnavailable`, the failure
is surfaced synchronously as an error reply, no deletion task is armed, and
the whole state — in particular the metadata table — is unchanged: no orphan
metadata row is created. -/
theorem C6_put_failure_no_orphan (st : SysState) (now uid : Int) (fid fname uuid m : String) :
    handle_document st now uid (some (fid, fname)) uuid (UploadOutcome.storageUnavailable m)
      = (st, Reply.uploadError m, []) :=
  rfl

/-- C7: the deletion task armed for an accepted upload carries a delay equal
to `max 0 (expires_at - now)` for the row just created (here both sides are
3600, since `expiration_time = now + 3600`); and a non-positive delay makes
`asyncio.sleep` yield immediately (duration 0) rather than fail, so an
already-due trigger fires on the next scheduling opportunity. -/
theorem C7_arm_delay_matches_expiry (st : SysState) (now uid : Int)
    (fid fname uuid : String) (d : Int) (hd : d ≤ 0) :
    (handle_document st now uid (some (fid, fname)) uuid UploadOutcome.ok).2.2 =
      [{ file_key := (createdRecord st now uid fname uuid).unique_name,
         delay_seconds :=
           max 0 ((createdRecord st now uid fname uuid).expiration_time - now) }] ∧
    sleepDuration d = 0 := by
  constructor
  · have h1 : (createdRecord st now uid fname uuid).expiration_time - now = 3600 := by
      simp [createdRecord]
    simp [handle_document, createdRecord, h1]
  · exact max_eq_left hd

/-- C7 witness: concrete evaluation with `now = 100`, owner 7, and an
already-negative delay `d = -5`. -/
theorem C7_arm_delay_matches_expiry_witness :
    (handle_document exState 100 7 (some ("fid", "a.txt")) "u" UploadOutcome.ok).2.2 =
      [{ file_key := (createdRecord exState 100 7 "a.txt" "u").unique_name,
         delay_seconds :=
           max 0 ((createdRecord exState 100 7 "a.txt" "u").expiration_time - 100) }] ∧
    sleepDuration (-5) = 0 :=
  C7_arm_delay_matches_expiry exState 100 7 "fid" "a.txt" "u" (-5) (by decide)

/-- C8: the owner-scoped listing returns exactly the owner's rows (all of
them, and nothing else), in table order — which, when the table is ordered by
creation time (every row's `expiration_time` is its creation time plus 3600,
so creation order and expiration order coincide), makes the result ordered by
creation time ascending; and when the owner has no rows the handler answers
the fixed no-files message, never an error. -/
theorem C8_owner_listing (st : SysState) (uid : Int)
    (hsorted : st.db.Pairwise (fun a b => a.expiration_time ≤ b.expiration_time)) :
    (∀ r ∈ files_handler st uid, r.user_id = uid) ∧
    (∀ r ∈ st.db, r.user_id = uid → r ∈ files_handler st uid) ∧
    (files_handler st uid).Pairwise (fun a b => a.expiration_time ≤ b.expiration_time) ∧
    (files_handler st uid = [] → files_handler_reply st uid = FilesReply.noFiles) ∧
    (files_handler st uid ≠ [] →
      files_handler_reply st uid = FilesReply.listing (files_handler st uid)) := by
  refine ⟨?_, ?_, ?_, ?_, ?_⟩
  · intro r hr
    have := (List.mem_filter.mp hr).2
    simpa using this
  · intro r hr hu
    exact List.mem_filter.mpr ⟨hr, by simpa using hu⟩
  · exact hsorted.sublist (List.filter_sublist st.db)
  · intro hempty
    simp [files_handler_reply, hempty]
  · intro hne
    simp only [files_handler_reply]
    rw [if_neg (by simpa [List.isEmpty_iff] using hne)]

/-- C8 witness: concrete evaluation on the two-owner state `exState2` for
owner 7 — the row of owner 7 is listed, its listed copy carries owner 7, and
the reply is the listing message. -/
theorem C8_owner_listing_witness :
    exRecord.user_id = 7 ∧
    exRecord ∈ files_handler exState2 7 ∧
    files_handler_reply exState2 7 = FilesReply.listing (files_handler exState2 7) :=
  ⟨(C8_owner_listing exState2 7 (by decide)).1 exRecord (by decide),
   (C8_owner_listing exState2 7 (by decide)).2.1 exRecord (by decide) (by decide),
   (C8_owner_listing exState2 7 (by decide)).2.2.2.2 (by decide)⟩

/-- C9: ownership isolation — for distinct owners `A ≠ B`, no row returned by
the listing for `A` was created with owner `B`: every returned row has
`user_id = A`, hence not `B`. -/
theorem C9_ownership_isolation (st : SysState) (A B : Int) (hAB : A ≠ B) :
    ∀ r ∈ files_handler st A, r.user_id ≠ B := by
  intro r hr
  have hA : r.user_id = A := by simpa using (List.mem_filter.mp hr).2
  rw [hA]
  exact hAB

/-- C9 witness: on `exState2`, the row listed for owner 7 does not belong to
owner 8 (the proposition that it does is `False`). -/
theorem C9_ownership_isolation_witness :
    (exRecord.user_id = 8) = False :=
  eq_false (C9_ownership_isolation exState2 7 8 (by decide) exRecord (by decide))

/-- C10: the lifetime is a fixed one hour independent of anything the caller
supplies (the statement quantifies over every message input and the clock):
the pre-signed URL is issued with `ExpiresIn = 3600`, the stored
`expiration_time` is the upload time plus 3600 seconds, and the deletion task
is armed with delay 3600 — all three durations coincide for every accepted
upload. -/
theorem C10_fixed_one_hour_lifetime (st : SysState) (now uid : Int)
    (fid fname uuid : String) :
    (handle_document st now uid (some (fid, fname)) uuid UploadOutcome.ok).1.db =
      st.db ++ [createdRecord st now uid fname uuid] ∧
    (handle_document st now uid (some (fid, fname)) uuid UploadOutcome.ok).2.1 =
      Reply.uploaded (createdRecord st now uid fname uuid).download_link ∧
    (createdRecord st now uid fname uuid).download_link.expiresIn = 3600 ∧
    (createdRecord st now uid fname uuid).expiration_time = now + 3600 ∧
    (handle_document st now uid (some (fid, fname)) uuid UploadOutcome.ok).2.2 =
      [{ file_key := (createdRecord st now uid fname uuid).unique_name,
         delay_seconds := 3600 }] :=
  ⟨rfl, rfl, rfl, rfl, rfl⟩

end TelegramFileBot
